import Mathlib

/-!
Verification of the identity/session/linking core of the Miss_Pauling
repository, shallowly embedded from the Python sources:

* `src/shared/models.py`              — data model (users, sessions, roles)
* `src/shared/repositories.py`        — `UserRepository` operations
* `src/website/app/db/repositories.py`— the website variant of the repository
* `src/website/app/models/admin.py`   — role hierarchy / assignment gate
* `src/bot/backend/services/auth_service.py` — `handle_account_linking`
* `src/bot/backend/api/auth.py`       — steam login/callback, unlink,
                                        force-link endpoints

The relational store is modelled as lists of records; a SQLAlchemy
`db.commit()` is modelled as the pure state produced so far, except where a
schema uniqueness constraint (`unique=True` on `users.steam_id64`,
`users.discord_id` and `user_sessions.session_token` in
`src/shared/models.py`) can reject the write: such commits are modelled as
checking the constraint and leaving the state of the last successful commit
in place when it is violated (SQLAlchemy raises `IntegrityError` and the
failed transaction is rolled back).  Timestamps are abstract `Nat` ticks.
External calls (Steam OpenID verification, Steam profile fetch, token
signature verification, uuid generation) are inputs to the embedded
functions.  URL query-string encoding of JSON error payloads in redirect
responses is abstracted: responses carry the payload fields themselves.
-/

namespace MissPauling

/-- Python truthiness of an optional string (`if name and ...`):
`None` and the empty string are falsy. -/
def truthy : Option String → Bool
  | none => false
  | some s => s ≠ ""

/-- Model of `urllib.parse.quote_plus` on one character: keep the always-safe
characters, turn a space into `+`, percent-encode the rest (byte values
below 256; the tokens fed to it in this code are ASCII). -/
def quotePlusChar (c : Char) : String :=
  if c.isAlphanum || c = '-' || c = '_' || c = '.' || c = '~' then
    String.singleton c
  else if c = ' ' then "+"
  else
    let n := c.toNat % 256
    let hex := fun (k : Nat) => String.singleton (Nat.digitChar k)
    "%" ++ hex (n / 16) ++ hex (n % 16)

/-- Model of `urllib.parse.quote_plus` (default safe set). -/
def quote_plus (s : String) : String :=
  String.join (s.toList.map quotePlusChar)

/-- Python's `str.lower()` (character-wise lowercasing). -/
def lowerString (s : String) : String :=
  String.mk (s.data.map Char.toLower)

/-! ## Data model — `src/shared/models.py` -/

/-- The `RoleType(PyEnum)` enumeration: the closed role enumeration. -/
inductive RoleType where
  | superadmin
  | administrator
  | moderator
  | helper
  | captain
  | user
deriving Repr, DecidableEq

/-- A `Role` row: `id`, `name` (unique). -/
structure Role where
  id : Nat
  name : RoleType
deriving Repr, DecidableEq

/-- A `UserRole` row: the user/role join, recording who granted the role
(`assigned_by`, `none` = system-granted). -/
structure UserRole where
  user_id : Nat
  role_id : Nat
  assigned_by : Option Nat
deriving Repr, DecidableEq

/-- A `UserSession` row. -/
structure UserSession where
  user_id : Nat
  session_token : String
  provider : String
  ip_address : Option String
  user_agent : Option String
  expires_at : Option Nat
  is_active : Bool
deriving Repr, DecidableEq

/-- A `User` row.  `steam_id64`/`discord_id` carry `unique=True` in the
schema; `steam_id`, `steam_id3`, `steam_profile_url` are the derived Steam
representations. -/
structure User where
  id : Nat
  name : Option String
  avatar_url : Option String
  steam_id64 : Option String
  steam_id : Option String
  steam_id3 : Option String
  steam_profile_url : Option String
  discord_id : Option String
  last_login : Nat
deriving Repr, DecidableEq

/-- The relational store: the four tables plus the autoincrement counter
for `users.id`. -/
structure Store where
  users : List User
  sessions : List UserSession
  roles : List Role
  user_roles : List UserRole
  next_user_id : Nat
deriving Repr, DecidableEq

/-- Replace the user with id `uid` by `f` applied to it (a SQLAlchemy
attribute mutation followed by a commit). -/
def updateUser (db : Store) (uid : Nat) (f : User → User) : Store :=
  { db with users := db.users.map (fun u => if u.id = uid then f u else u) }

/-- No two users share a `steam_id64` and no two share a `discord_id`
(the schema's uniqueness constraints on the `users` table). -/
def usersUnique : List User → Bool
  | [] => true
  | u :: rest =>
      (u.steam_id64 = none || !(rest.any (fun w => w.steam_id64 == u.steam_id64))) &&
      (u.discord_id = none || !(rest.any (fun w => w.discord_id == u.discord_id))) &&
      usersUnique rest

/-- The Steam dict passed as `steam_data` by the steam callback: the three
derived-representation keys are always present (see
`src/bot/backend/api/auth.py` lines 93–97), their values may be `None`. -/
structure SteamData where
  steam_id : Option String
  steam_id3 : Option String
  steam_profile_url : Option String
deriving Repr, DecidableEq

/-- The dict returned by `get_steam_user_info`: derived id forms plus
profile fields. -/
structure SteamProfile where
  steam_id : Option String
  steam_id3 : Option String
  steam_profile_url : Option String
  name : Option String
  avatar_url : Option String
deriving Repr, DecidableEq

/-! ## `UserRepository` — `src/shared/repositories.py` -/

/-- Embeds `get_user_by_auth_id`. -/
def get_user_by_auth_id (db : Store) (provider : String) (auth_id : String) :
    Option User :=
  if provider = "steam" then
    db.users.find? (fun u => u.steam_id64 == some auth_id)
  else if provider = "discord" then
    db.users.find? (fun u => u.discord_id == some auth_id)
  else none

/-- Embeds `get_user_by_id`. -/
def get_user_by_id (db : Store) (user_id : Nat) : Option User :=
  db.users.find? (fun u => u.id == user_id)

/-- Model of `RoleType(role_name)`: Python's enum by-value lookup (exact,
case-sensitive match; raises `ValueError` — here `none` — otherwise). -/
def roleTypeOfString (s : String) : Option RoleType :=
  if s = "superadmin" then some .superadmin
  else if s = "administrator" then some .administrator
  else if s = "moderator" then some .moderator
  else if s = "helper" then some .helper
  else if s = "captain" then some .captain
  else if s = "user" then some .user
  else none

/-- Embeds `assign_role`: parse the role name, look the role row up, and insert a
`UserRole` row unless the (user, role) pair already exists.  Returns the
new store and the boolean result. -/
def assign_role (db : Store) (user_id : Nat) (role_name : String)
    (assigned_by_user_id : Option Nat := none) : Store × Bool :=
  match roleTypeOfString role_name with
  | none => (db, false)
  | some role_type =>
    match db.roles.find? (fun r => r.name == role_type) with
    | none => (db, false)
    | some role =>
      match db.user_roles.find?
          (fun ur => ur.user_id == user_id && ur.role_id == role.id) with
      | some _ => (db, true)
      | none =>
          ({ db with user_roles :=
              db.user_roles ++ [⟨user_id, role.id, assigned_by_user_id⟩] },
           true)

/-- Embeds `get_user_roles`: the roles joined through the `UserRole` table. -/
def get_user_roles (db : Store) (user_id : Nat) : List Role :=
  (db.user_roles.filter (fun ur => ur.user_id == user_id)).filterMap
    (fun ur => db.roles.find? (fun r => r.id == ur.role_id))

/-- Embeds `create_or_update_user` (shared variant, with the automatic `user`
role grant at creation). -/
def create_or_update_user (db : Store) (provider auth_id : String)
    (name avatar_url : Option String) (steam_data : Option SteamData)
    (now : Nat) : Store × Option User :=
  match get_user_by_auth_id db provider auth_id with
  | some u =>
      let db1 := updateUser db u.id (fun v =>
        let v := if name.isSome then { v with name := name } else v
        let v := if avatar_url.isSome then { v with avatar_url := avatar_url } else v
        let v :=
          if provider = "steam" then
            match steam_data with
            | some sd =>
                { v with steam_id := sd.steam_id, steam_id3 := sd.steam_id3,
                         steam_profile_url := sd.steam_profile_url }
            | none => v
          else v
        { v with last_login := now })
      (db1, get_user_by_id db1 u.id)
  | none =>
      let newUser : User :=
        { id := db.next_user_id
          name := name
          avatar_url := avatar_url
          steam_id64 := if provider = "steam" then some auth_id else none
          steam_id := if provider = "steam" then
              (steam_data.bind (fun sd => sd.steam_id)) else none
          steam_id3 := if provider = "steam" then
              (steam_data.bind (fun sd => sd.steam_id3)) else none
          steam_profile_url := if provider = "steam" then
              (steam_data.bind (fun sd => sd.steam_profile_url)) else none
          discord_id := if provider = "discord" then some auth_id else none
          last_login := now }
      let db1 : Store :=
        { db with users := db.users ++ [newUser],
                  next_user_id := db.next_user_id + 1 }
      let db2 := (assign_role db1 newUser.id "user").1
      (db2, some newUser)

/-- Embeds `create_or_update_user` from `src/website/app/db/repositories.py`:
identical to the shared variant except that it performs no role
assignment after inserting a new user. -/
def website_create_or_update_user (db : Store) (provider auth_id : String)
    (name avatar_url : Option String) (steam_data : Option SteamData)
    (now : Nat) : Store × Option User :=
  match get_user_by_auth_id db provider auth_id with
  | some u =>
      let db1 := updateUser db u.id (fun v =>
        let v := if name.isSome then { v with name := name } else v
        let v := if avatar_url.isSome then { v with avatar_url := avatar_url } else v
        let v :=
          if provider = "steam" then
            match steam_data with
            | some sd =>
                { v with steam_id := sd.steam_id, steam_id3 := sd.steam_id3,
                         steam_profile_url := sd.steam_profile_url }
            | none => v
          else v
        { v with last_login := now })
      (db1, get_user_by_id db1 u.id)
  | none =>
      let newUser : User :=
        { id := db.next_user_id
          name := name
          avatar_url := avatar_url
          steam_id64 := if provider = "steam" then some auth_id else none
          steam_id := if provider = "steam" then
              (steam_data.bind (fun sd => sd.steam_id)) else none
          steam_id3 := if provider = "steam" then
              (steam_data.bind (fun sd => sd.steam_id3)) else none
          steam_profile_url := if provider = "steam" then
              (steam_data.bind (fun sd => sd.steam_profile_url)) else none
          discord_id := if provider = "discord" then some auth_id else none
          last_login := now }
      ({ db with users := db.users ++ [newUser],
                 next_user_id := db.next_user_id + 1 },
       some newUser)

/-- Embeds `link_account`: attach a provider identity to an existing user;
fails with the conflicting owner if the identity belongs to someone else. -/
def link_account (db : Store) (user_id : Nat) (provider auth_id : String)
    (name avatar_url : Option String) (steam_data : Option SteamData) :
    Store × Option User × Bool :=
  match get_user_by_auth_id db provider auth_id with
  | some existing =>
      if existing.id ≠ user_id then (db, some existing, false)
      else link_account_write db user_id provider auth_id name avatar_url steam_data
  | none => link_account_write db user_id provider auth_id name avatar_url steam_data
where
  /-- The write half of `link_account` (reached when there is no
  conflicting owner). -/
  link_account_write (db : Store) (user_id : Nat) (provider auth_id : String)
      (name avatar_url : Option String) (steam_data : Option SteamData) :
      Store × Option User × Bool :=
    match get_user_by_id db user_id with
    | none => (db, none, false)
    | some _ =>
        let db1 := updateUser db user_id (fun v =>
          let v :=
            if provider = "steam" then
              let v := { v with steam_id64 := some auth_id }
              match steam_data with
              | some sd =>
                  { v with steam_id := sd.steam_id, steam_id3 := sd.steam_id3,
                           steam_profile_url := sd.steam_profile_url }
              | none => v
            else if provider = "discord" then { v with discord_id := some auth_id }
            else v
          let v := if truthy name && !(truthy v.name) then { v with name := name } else v
          if truthy avatar_url && !(truthy v.avatar_url) then
            { v with avatar_url := avatar_url } else v)
        (db1, get_user_by_id db1 user_id, true)

/-- Embeds `create_session`: insert a session with the generated token (the
`uuid4` value is an input here); the token's uniqueness constraint rejects
a colliding insert, leaving the store unchanged. -/
def create_session (db : Store) (user_id : Nat) (provider : String)
    (ip_address user_agent : Option String) (token : String) (now : Nat)
    (expires_days : Nat := 30) : Store × Option UserSession :=
  if db.sessions.any (fun s => s.session_token == token) then (db, none)
  else
    let s : UserSession :=
      { user_id := user_id, session_token := token, provider := provider,
        ip_address := ip_address, user_agent := user_agent,
        expires_at := some (now + expires_days), is_active := true }
    ({ db with sessions := db.sessions ++ [s] }, some s)

/-- Embeds `get_session`: only active, unexpired sessions are returned. -/
def get_session (db : Store) (session_token : String) (now : Nat) :
    Option UserSession :=
  db.sessions.find? (fun s =>
    s.session_token == session_token && s.is_active &&
      (match s.expires_at with
       | some e => decide (e > now)
       | none => true))

/-- Embeds `invalidate_session`: looked up without the active/expiry filter;
marks matching rows inactive. -/
def invalidate_session (db : Store) (session_token : String) : Store × Bool :=
  match db.sessions.find? (fun s => s.session_token == session_token) with
  | none => (db, false)
  | some _ =>
      ({ db with sessions := db.sessions.map (fun s =>
          if s.session_token == session_token then { s with is_active := false }
          else s) },
       true)

/-- Embeds `unlink_account`: clear the provider's fields, flagging
`requires_logout` when it was the only linked provider. -/
def unlink_account (db : Store) (user_id : Nat) (provider : String) :
    Store × Option User × Bool × Bool :=
  match get_user_by_id db user_id with
  | none => (db, none, false, false)
  | some user =>
      let has_steam := user.steam_id64 ≠ none
      let has_discord := user.discord_id ≠ none
      let requires_logout :=
        (provider = "steam" && has_steam && !has_discord) ||
        (provider = "discord" && has_discord && !has_steam)
      let db1 :=
        if provider = "steam" && user.steam_id64.isSome then
          updateUser db user_id (fun v =>
            { v with steam_id64 := none, steam_id := none, steam_id3 := none,
                     steam_profile_url := none })
        else if provider = "discord" && user.discord_id.isSome then
          updateUser db user_id (fun v => { v with discord_id := none })
        else db
      (db1, get_user_by_id db1 user_id, true, requires_logout)

/-! ## Role hierarchy — `src/website/app/models/admin.py` -/

/-- Embeds `get_role_hierarchy`: dictionary lookup on the lower-cased role name,
999 for unknown names. -/
def get_role_hierarchy (role_name : String) : Nat :=
  let l := lowerString role_name
  if l = "superadmin" then 0
  else if l = "administrator" then 1
  else if l = "moderator" then 2
  else if l = "helper" then 3
  else if l = "captain" then 4
  else if l = "user" then 5
  else 999

/-- Embeds `can_assign_role`: an actor may assign a role iff its hierarchy
number is strictly greater (lower privilege) than the actor's. -/
def can_assign_role (assigner_highest_role target_role : String) : Bool :=
  decide (get_role_hierarchy target_role > get_role_hierarchy assigner_highest_role)

/-- The value strings of the closed role enumeration. -/
def roleNames : List String :=
  ["superadmin", "administrator", "moderator", "helper", "captain", "user"]

/-- The enum member's value string. -/
def roleName : RoleType → String
  | .superadmin => "superadmin"
  | .administrator => "administrator"
  | .moderator => "moderator"
  | .helper => "helper"
  | .captain => "captain"
  | .user => "user"

/-- The hierarchy rank of the claims' closed enumeration
(superadmin=0 … user=5). -/
def roleRank : RoleType → Nat
  | .superadmin => 0
  | .administrator => 1
  | .moderator => 2
  | .helper => 3
  | .captain => 4
  | .user => 5

/-! ## Linking orchestrator — `src/bot/backend/services/auth_service.py` -/

/-- The result of `serializer.loads` on a presented link token:
`invalid` covers a load failure or a payload missing the `user` /
`session_token` keys; `valid` carries the embedded session token. -/
inductive LinkTokenParse where
  | invalid
  | valid (session_token : String)
deriving Repr, DecidableEq

/-- A link token as presented by the caller: the raw string (echoed into
the force-link retry URL) together with what it deserializes to. -/
structure LinkTokenInput where
  raw : String
  parse : LinkTokenParse
deriving Repr, DecidableEq

/-- The structured `error_detail` dict built by `handle_account_linking`. -/
structure ErrorDetail where
  message : String
  error_code : Option String := none
  auth_id : Option String := none
  linked_to_user_id : Option Nat := none
  force_link_url : Option String := none
deriving Repr, DecidableEq

/-- The `(user, success, error_detail)` triple of
`handle_account_linking`, together with the resulting store. -/
structure LinkOutcome where
  store : Store
  user : Option User
  success : Bool
  error : Option ErrorDetail
deriving Repr, DecidableEq

/-- Embeds `handle_account_linking`.  The force-link branch mirrors the source
exactly: it clears only `existing_user.steam_id` (for Steam; the primary
`steam_id64` column is left in place) and commits, then attaches
`auth_id` to the current user and commits again; the second commit is
subject to the `steam_id64`/`discord_id` uniqueness constraints, and its
failure lands in the `except` branch with the first commit already
persisted. -/
def handle_account_linking (db : Store) (realm : String)
    (link_token : Option LinkTokenInput) (provider auth_id : String)
    (name avatar_url : Option String) (force_link : Bool)
    (steam_data : Option SteamData) (now : Nat) : LinkOutcome :=
  let link_user_id : Option Nat :=
    match link_token with
    | none => none
    | some lt =>
      match lt.parse with
      | .invalid => none
      | .valid st =>
        match get_session db st now with
        | none => none
        | some session => some session.user_id
  match link_user_id with
  | none => ⟨db, none, true, none⟩
  | some uid =>
    match get_user_by_id db uid with
    | none => ⟨db, none, false, some { message := "User not found" }⟩
    | some _current_user =>
      let existing_user := get_user_by_auth_id db provider auth_id
      match existing_user with
      | some eu =>
        if force_link && eu.id ≠ uid then
          -- unlink from the existing user first (Steam: only `steam_id`),
          -- then commit
          let db1 :=
            if provider = "steam" then
              updateUser db eu.id (fun v => { v with steam_id := none })
            else if provider = "discord" then
              updateUser db eu.id (fun v => { v with discord_id := none })
            else db
          -- now link it to the current user and commit again
          let db2 := updateUser db1 uid (fun v =>
            let v :=
              if provider = "steam" then
                let v := { v with steam_id64 := some auth_id }
                match steam_data with
                | some sd =>
                    { v with steam_id := sd.steam_id, steam_id3 := sd.steam_id3,
                             steam_profile_url := sd.steam_profile_url }
                | none => v
              else if provider = "discord" then { v with discord_id := some auth_id }
              else v
            let v := if truthy name && !(truthy v.name) then { v with name := name } else v
            if truthy avatar_url && !(truthy v.avatar_url) then
              { v with avatar_url := avatar_url } else v)
          if usersUnique db2.users then
            ⟨db2, get_user_by_id db2 uid, true, none⟩
          else
            -- IntegrityError on the second commit, caught by `except`
            ⟨db1, none, false, some { message := "Failed to force link account" }⟩
        else
          handle_normal_link db realm link_token provider auth_id name avatar_url
            force_link steam_data uid existing_user
      | none =>
          handle_normal_link db realm link_token provider auth_id name avatar_url
            force_link steam_data uid existing_user
where
  /-- The non-force branch: delegate to `link_account` and, on a
  conflict, surface the structured error detail. -/
  handle_normal_link (db : Store) (realm : String)
      (link_token : Option LinkTokenInput) (provider auth_id : String)
      (name avatar_url : Option String) (force_link : Bool)
      (steam_data : Option SteamData) (uid : Nat)
      (existing_user : Option User) : LinkOutcome :=
    let r := link_account db uid provider auth_id name avatar_url
      (if provider = "steam" then steam_data else none)
    if !r.2.2 && !force_link then
      let ed : ErrorDetail :=
        { message := "This " ++ provider ++ " account is already linked to a different user"
          error_code := some (provider ++ "_account_already_linked")
          auth_id := some auth_id
          linked_to_user_id := existing_user.map (fun u => u.id)
          force_link_url :=
            if provider = "steam" then
              some (realm ++ "/auth/steam/login?link_token=" ++
                quote_plus ((link_token.map (fun lt => lt.raw)).getD "") ++
                "&force=true")
            else none }
      ⟨r.1, r.2.1, false, some ed⟩
    else ⟨r.1, r.2.1, r.2.2, none⟩

/-! ## API endpoints — `src/bot/backend/api/auth.py` -/

/-- The result of `verify_token` on a presented bearer token:
`sigFail` is a deserialization/signature failure (an exception),
`badFormat` a payload without the `user`/`session_token` keys, `valid`
carries the embedded session token. -/
inductive AuthTokenParse where
  | sigFail
  | badFormat
  | valid (session_token : String)
deriving Repr, DecidableEq

/-- An endpoint response: either a user payload (with the
`requires_logout` flag where the endpoint sets one) or an HTTP error. -/
inductive ApiResult where
  | ok (u : User) (requires_logout : Bool)
  | err (status : Nat) (detail : String)
deriving Repr, DecidableEq

/-- Recognizer for `ApiResult.err`. -/
def ApiResult.isErr : ApiResult → Bool
  | .err _ _ => true
  | .ok _ _ => false

/-- The `POST /auth/unlink` endpoint. -/
def unlink_endpoint (db : Store) (token : AuthTokenParse) (provider : String)
    (now : Nat) : Store × ApiResult :=
  match token with
  | .sigFail => (db, .err 500 "Account unlinking failed")
  | .badFormat => (db, .err 401 "Invalid authentication token format")
  | .valid st =>
    match get_session db st now with
    | none => (db, .err 401 "Session expired or invalid")
    | some session =>
      match get_user_by_id db session.user_id with
      | none => (db, .err 401 "User not found")
      | some user =>
        if provider = "discord" then
          (db, .err 400 "Discord account cannot be unlinked as it is mandatory for authentication")
        else if provider = "steam" && user.steam_id64 = none then
          (db, .err 400 "No Steam account is linked to this user")
        else
          let r := unlink_account db user.id provider
          if r.2.2.1 then
            (r.1, .ok ((r.2.1).getD user) r.2.2.2)
          else
            (r.1, .err 400 ("Failed to unlink " ++ provider ++ " account"))

/-- The `POST /auth/force-link-steam` endpoint.  The unlink of the old
owner is committed on its own (line 434 of the source); the subsequent
Steam profile fetch and attach run in a separate try whose failure only
rolls back the uncommitted half. -/
def force_link_steam (db : Store) (body_token : Option AuthTokenParse)
    (body_steam_id : Option String) (fetch : Option SteamProfile)
    (now : Nat) : Store × ApiResult :=
  match body_token, body_steam_id with
  | none, _ => (db, .err 400 "Missing required fields")
  | some _, none => (db, .err 400 "Missing required fields")
  | some tok, some steam_id64 =>
    match tok with
    | .sigFail => (db, .err 500 "Failed to force link Steam account")
    | .badFormat => (db, .err 401 "Invalid authentication token format")
    | .valid st =>
      match get_session db st now with
      | none => (db, .err 401 "Session expired or invalid")
      | some session =>
        match get_user_by_id db session.user_id with
        | none => (db, .err 404 "User not found")
        | some current_user =>
          let existing_user := get_user_by_auth_id db "steam" steam_id64
          match existing_user with
          | some eu =>
            if eu.id = current_user.id then (db, .ok current_user false)
            else
              -- manually unlink the Steam account from the existing user,
              -- committed on its own
              let db1 := updateUser db eu.id (fun v =>
                { v with steam_id64 := none, steam_id := none, steam_id3 := none,
                         steam_profile_url := none })
              force_link_attach db1 current_user steam_id64 fetch
          | none => force_link_attach db current_user steam_id64 fetch
where
  /-- The second half: fetch the Steam profile and attach all four Steam
  representations to the current user; a failure reaches the `except`
  branch, whose `db.rollback()` cannot undo the already-committed
  unlink. -/
  force_link_attach (db : Store) (current_user : User) (steam_id64 : String)
      (fetch : Option SteamProfile) : Store × ApiResult :=
    match fetch with
    | none => (db, .err 500 "Failed to link Steam account")
    | some sp =>
      let db2 := updateUser db current_user.id (fun v =>
        let v := { v with steam_id64 := some steam_id64, steam_id := sp.steam_id,
                          steam_id3 := sp.steam_id3,
                          steam_profile_url := sp.steam_profile_url }
        let v := if truthy sp.name && !(truthy v.name) then { v with name := sp.name } else v
        if truthy sp.avatar_url && !(truthy v.avatar_url) then
          { v with avatar_url := sp.avatar_url } else v)
      if usersUnique db2.users then
        (db2, .ok ((get_user_by_id db2 current_user.id).getD current_user) false)
      else
        (db, .err 500 "Failed to link Steam account")

/-- The response of `GET /auth/steam/login`: a redirect either back to
the frontend or out to the Steam OpenID endpoint (the latter being the
start of provider interaction). -/
inductive LoginResponse where
  | redirectFrontend (url : String)
  | redirectSteam (return_to : String)
deriving Repr, DecidableEq

/-- Embeds `GET /auth/steam/login`: without a link token the request is turned
away to the frontend before any provider interaction. -/
def steam_login (frontend_url return_to : String)
    (link_token : Option String) (force : Bool) : LoginResponse :=
  match link_token with
  | none => .redirectFrontend (frontend_url ++ "?error=steam_login_disabled")
  | some tok =>
      .redirectSteam (return_to ++ "?link_token=" ++ quote_plus (quote_plus tok) ++
        (if force then "&force=true" else ""))

/-- A steam-callback response: an error redirect carrying a JSON payload
(`message`/`status`), a conflict redirect carrying the structured linking
error, or a success redirect carrying the signed token (represented by
the wrapped session token). -/
inductive CbResponse where
  | errorRedirect (base : String) (message : String) (status : Nat)
  | conflictRedirect (base : String) (detail : ErrorDetail)
  | tokenRedirect (base : String) (session_token : String)
deriving Repr, DecidableEq

/-- Recognizer for `CbResponse.errorRedirect`. -/
def CbResponse.isErrorRedirect : CbResponse → Bool
  | .errorRedirect _ _ _ => true
  | _ => false

/-- The outcome of a steam-callback request: the resulting store, whether
Steam OpenID verification was attempted during the request, and the
redirect response. -/
structure CallbackOutcome where
  store : Store
  verificationAttempted : Bool
  response : CbResponse
deriving Repr, DecidableEq

/-- Embeds `GET /auth/steam/callback`.  `validate_steam_auth` and
`get_steam_user_info` are the first two statements of the handler, so
provider verification is attempted on every request — including those
without a link token, which are only rejected afterwards. -/
def steam_callback (db : Store) (frontend_url realm : String)
    (link_token : Option LinkTokenInput) (force : Bool)
    (verify : Except String String) (profile : Except String SteamProfile)
    (new_session_token : String) (now : Nat) : CallbackOutcome :=
  match verify with
  | .error msg =>
      ⟨db, true, .errorRedirect (frontend_url ++ "/auth-callback") msg 401⟩
  | .ok steam_id64 =>
    match profile with
    | .error msg =>
        ⟨db, true, .errorRedirect (frontend_url ++ "/auth-callback") msg 500⟩
    | .ok sp =>
      match link_token with
      | none =>
          ⟨db, true,
            .errorRedirect frontend_url
              "Direct Steam login is disabled. Please log in with Discord first." 403⟩
      | some lt =>
        let r := handle_account_linking db realm (some lt) "steam" steam_id64
          sp.name sp.avatar_url
          force (some ⟨sp.steam_id, sp.steam_id3, sp.steam_profile_url⟩) now
        match r.error with
        | some ed =>
            ⟨r.store, true, .conflictRedirect (frontend_url ++ "/auth-callback") ed⟩
        | none =>
          match r.user with
          | some u =>
              let cs := create_session r.store u.id "discord" none none
                new_session_token now
              ⟨cs.1, true,
                .tokenRedirect (frontend_url ++ "/auth-callback") new_session_token⟩
          | none =>
              ⟨r.store, true,
                .errorRedirect frontend_url
                  "Something went wrong with account linking" 400⟩

/-! ## Session-store operation alphabet (for the monotonicity claim) -/

/-- Every operation of the system that touches the `user_sessions` table:
session creation (on login / force-link) and invalidation (logout).
Sessions are never hard-deleted and no operation sets `is_active` back to
true. -/
inductive SessionOp where
  | create (user_id : Nat) (provider : String) (ip ua : Option String)
      (token : String) (now : Nat) (expires_days : Nat)
  | invalidate (token : String)
deriving Repr, DecidableEq

/-- Apply one session-store operation. -/
def applySessionOp (db : Store) : SessionOp → Store
  | .create uid p ip ua tok now days => (create_session db uid p ip ua tok now days).1
  | .invalidate tok => (invalidate_session db tok).1

/-- Apply a sequence of session-store operations. -/
def applySessionOps (db : Store) : List SessionOp → Store
  | [] => db
  | op :: ops => applySessionOps (applySessionOp db op) ops

/-- A token is dead in a store: a session row with that token exists and
every such row is inactive.  This is the state `invalidate_session`
establishes and every session-store operation preserves. -/
def tokenDead (db : Store) (t : String) : Prop :=
  (∃ s ∈ db.sessions, s.session_token = t) ∧
  ∀ s ∈ db.sessions, s.session_token = t → s.is_active = false

/-! ## Concrete fixtures used by witnesses and counterexamples -/

/-- User A: owns the Steam identity `76561198000000001` (all four stored
representations) and a Discord identity. -/
def steamA : User :=
  { id := 1, name := some "Alice", avatar_url := none,
    steam_id64 := some "76561198000000001",
    steam_id := some "STEAM_0:1:20000",
    steam_id3 := some "[U:1:40001]",
    steam_profile_url := some "https://steamcommunity.com/profiles/76561198000000001",
    discord_id := some "100", last_login := 0 }

/-- User B: Discord-only, with an active session. -/
def discordB : User :=
  { id := 2, name := some "Bob", avatar_url := some "https://cdn.example/b.png",
    steam_id64 := none, steam_id := none, steam_id3 := none,
    steam_profile_url := none, discord_id := some "200", last_login := 0 }

/-- B's active session, expiring at tick 100. -/
def sessB : UserSession :=
  { user_id := 2, session_token := "sess-b", provider := "discord",
    ip_address := none, user_agent := none, expires_at := some 100,
    is_active := true }

/-- The seeded role table. -/
def roleRows : List Role :=
  [⟨1, .superadmin⟩, ⟨2, .administrator⟩, ⟨3, .moderator⟩,
   ⟨4, .helper⟩, ⟨5, .captain⟩, ⟨6, .user⟩]

/-- A store with users A and B (both holding the `user` role) and B's
active session. -/
def store0 : Store :=
  { users := [steamA, discordB], sessions := [sessB], roles := roleRows,
    user_roles := [⟨1, 6, none⟩, ⟨2, 6, none⟩], next_user_id := 3 }

/-- An empty store with the role table seeded. -/
def storeEmpty : Store :=
  { users := [], sessions := [], roles := roleRows, user_roles := [],
    next_user_id := 1 }

/-- A Steam profile fetch result for the identity owned by A. -/
def spA : SteamProfile :=
  { steam_id := some "STEAM_0:1:20000", steam_id3 := some "[U:1:40001]",
    steam_profile_url := some "https://steamcommunity.com/profiles/76561198000000001",
    name := some "AliceSteam", avatar_url := some "https://avatars.example/a.png" }

/-- State of `store0` after the orchestrator's force-link path has failed: A's
`steam_id` is committed to null but A still holds `steam_id64`. -/
def store0PartialClear : Store :=
  { store0 with users := [{ steamA with steam_id := none }, discordB] }

/-- State of `store0` after the `force-link-steam` endpoint has committed the
unlink of A and the attach step has failed: nobody owns the identity. -/
def store0Orphaned : Store :=
  { store0 with users := [{ steamA with steam_id64 := none,
                                        steam_id := none,
                                        steam_id3 := none,
                                        steam_profile_url := none }, discordB] }

/-! ## Theorems -/

theorem get_user_by_id_id {db : Store} {uid : Nat} {u : User}
    (h : get_user_by_id db uid = some u) : u.id = uid := by
  rw [get_user_by_id] at h
  simpa using List.find?_some h

theorem invalidate_session_snd (db : Store) (t : String) :
    (invalidate_session db t).2 =
      (db.sessions.find? (fun s => s.session_token == t)).isSome := by
  unfold invalidate_session
  cases db.sessions.find? (fun s => s.session_token == t) <;> rfl

theorem tokenDead_get_none {db : Store} {t : String} (h : tokenDead db t)
    (now : Nat) : get_session db t now = none := by
  rw [get_session, List.find?_eq_none]
  intro s hs hp
  rw [Bool.and_eq_true, Bool.and_eq_true] at hp
  have ht : s.session_token = t := by simpa using hp.1.1
  have := h.2 s hs ht
  rw [this] at hp
  exact Bool.false_ne_true hp.1.2

theorem invalidate_session_tokenDead {db : Store} {t : String}
    (h : (invalidate_session db t).2 = true) :
    tokenDead (invalidate_session db t).1 t := by
  unfold invalidate_session at h ⊢
  cases hf : db.sessions.find? (fun s => s.session_token == t) with
  | none => rw [hf] at h; exact absurd h (by simp)
  | some s0 =>
    have hmem := List.mem_of_find?_eq_some hf
    have ht : s0.session_token = t := by simpa using List.find?_some hf
    refine ⟨⟨_, List.mem_map_of_mem _ hmem, ?_⟩, ?_⟩
    · simp [ht]
    · intro x hx hxt
      obtain ⟨y, hy, rfl⟩ := List.mem_map.mp hx
      by_cases hyt : (y.session_token == t) = true
      · simp [hyt]
      · rw [if_neg (by simpa using hyt)] at hxt ⊢
        exact absurd (by simpa using hxt) hyt

theorem tokenDead_applyOp {db : Store} {t : String} (h : tokenDead db t)
    (op : SessionOp) : tokenDead (applySessionOp db op) t := by
  cases op with
  | create uid p ip ua tok now days =>
    simp only [applySessionOp, create_session]
    by_cases hc : db.sessions.any (fun s => s.session_token == tok) = true
    · rw [if_pos hc]; exact h
    · rw [if_neg hc]
      constructor
      · obtain ⟨s, hs, hst⟩ := h.1
        exact ⟨s, List.mem_append_left _ hs, hst⟩
      · intro x hx hxt
        rcases List.mem_append.mp hx with hx | hx
        · exact h.2 x hx hxt
        · simp only [List.mem_singleton] at hx
          subst hx
          simp only at hxt
          exfalso
          apply hc
          obtain ⟨s, hs, hst⟩ := h.1
          exact List.any_eq_true.mpr ⟨s, hs, by simp [hst, hxt]⟩
  | invalidate tok =>
    simp only [applySessionOp, invalidate_session]
    cases hf : db.sessions.find? (fun s => s.session_token == tok) with
    | none => exact h
    | some s0 =>
      constructor
      · obtain ⟨s, hs, hst⟩ := h.1
        refine ⟨_, List.mem_map_of_mem _ hs, ?_⟩
        by_cases hsy : (s.session_token == tok) = true
        · rw [if_pos hsy]; exact hst
        · rw [if_neg hsy]; exact hst
      · intro x hx hxt
        obtain ⟨y, hy, rfl⟩ := List.mem_map.mp hx
        by_cases hyt : (y.session_token == tok) = true
        · simp [hyt]
        · rw [if_neg hyt] at hxt ⊢
          exact h.2 y hy hxt

theorem tokenDead_applyOps {db : Store} {t : String} (h : tokenDead db t)
    (ops : List SessionOp) : tokenDead (applySessionOps db ops) t := by
  induction ops generalizing db with
  | nil => exact h
  | cons op ops ih => exact ih (tokenDead_applyOp h op)

theorem find?_append_right_some {α} {l : List α} {p : α → Bool} {a : α}
    (h : l.find? p = none) (ha : p a = true) :
    (l ++ [a]).find? p = some a := by
  rw [List.find?_append, h]
  simp [List.find?, ha]

/-- C9: over the closed role enumeration, `can_assign_role` holds exactly
when the target's hierarchy number is strictly greater than the actor's;
in particular a moderator may grant `helper` but neither `administrator`
nor `moderator`. -/
theorem hierarchy_gate_iff :
    (∀ a t : RoleType,
      can_assign_role (roleName a) (roleName t) = true ↔ roleRank t > roleRank a)
    ∧ can_assign_role "moderator" "helper" = true
    ∧ can_assign_role "moderator" "administrator" = false
    ∧ can_assign_role "moderator" "moderator" = false := by
  refine ⟨fun a t => ?_, by decide, by decide, by decide⟩
  cases a <;> cases t <;> decide

/-- C10 (counterexample): `"User"` is not one of the six enumeration
value strings, yet `can_assign_role "user" "User"` is `false` — because
`get_role_hierarchy` lower-cases its argument, the name ranks 5, not 999,
so it is not the case that every name outside the enumeration passes the
gate against every actor. -/
theorem unknown_role_gate_cex :
    ("User" ∈ roleNames → False) ∧ can_assign_role "user" "User" = false := by
  constructor
  · intro h; revert h; decide
  · decide

/-- C10 (amended): for every actor in the enumeration and every target
name whose lower-cased form is outside the enumeration, the hierarchy
gate passes it (rank 999 beats every real rank) while `assign_role` with
that name returns `false` and leaves the store unchanged. -/
theorem unknown_role_gate_amended (a : RoleType) (t : String)
    (h : lowerString t ∉ roleNames) :
    can_assign_role (roleName a) t = true ∧
    ∀ (db : Store) (uid : Nat) (ab : Option Nat),
      assign_role db uid t ab = (db, false) := by
  simp only [roleNames, List.mem_cons, List.not_mem_nil, or_false, not_or] at h
  obtain ⟨h1, h2, h3, h4, h5, h6⟩ := h
  have h999 : get_role_hierarchy t = 999 := by
    simp [get_role_hierarchy, h1, h2, h3, h4, h5, h6]
  have hlow : ∀ s, s ∈ roleNames → lowerString s = s := by decide
  have hne : ∀ s, s ∈ roleNames → t ≠ s := by
    intro s hs heq
    rw [heq, hlow s hs] at h1 h2 h3 h4 h5 h6
    simp only [roleNames, List.mem_cons, List.not_mem_nil, or_false] at hs
    rcases hs with rfl | rfl | rfl | rfl | rfl | rfl
    · exact h1 rfl
    · exact h2 rfl
    · exact h3 rfl
    · exact h4 rfl
    · exact h5 rfl
    · exact h6 rfl
  have hparse : roleTypeOfString t = none := by
    simp [roleTypeOfString,
      hne "superadmin" (by decide), hne "administrator" (by decide),
      hne "moderator" (by decide), hne "helper" (by decide),
      hne "captain" (by decide), hne "user" (by decide)]
  refine ⟨?_, fun db uid ab => ?_⟩
  · rw [can_assign_role, h999]
    cases a <;> rfl
  · simp [assign_role, hparse]

/-- C10 (amended, witness): instantiated at actor `user` and the unknown
name `"wizard"`. -/
theorem unknown_role_gate_amended_witness :
    (lowerString "wizard" ∉ roleNames) ∧
    can_assign_role (roleName .user) "wizard" = true ∧
    assign_role store0 7 "wizard" none = (store0, false) := by
  have h : lowerString "wizard" ∉ roleNames := by decide
  exact ⟨h, (unknown_role_gate_amended .user "wizard" h).1,
    (unknown_role_gate_amended .user "wizard" h).2 store0 7 none⟩

/-- C4: an unlink request for provider `"discord"` is always denied — for
every store, presented token and time the endpoint returns an error and
leaves the store (hence every user's `discord_id`) unchanged,
independently of any other state. -/
theorem discord_unlink_always_denied (db : Store) (token : AuthTokenParse)
    (now : Nat) :
    (unlink_endpoint db token "discord" now).1 = db ∧
    ((unlink_endpoint db token "discord" now).2).isErr = true := by
  cases token with
  | sigFail => exact ⟨rfl, rfl⟩
  | badFormat => exact ⟨rfl, rfl⟩
  | valid st =>
    cases hs : get_session db st now with
    | none => simp [unlink_endpoint, hs, ApiResult.isErr]
    | some sess =>
      cases hu : get_user_by_id db sess.user_id with
      | none => simp [unlink_endpoint, hs, hu, ApiResult.isErr]
      | some user => simp [unlink_endpoint, hs, hu, ApiResult.isErr]

/-- C1 (evaluation at the failing input): user A owns Steam identity
`76561198000000001`; authenticated user B force-links it through
`handle_account_linking`.  The code clears only A's `steam_id` (not
`steam_id64`), so the attach commit violates the `steam_id64` uniqueness
constraint and the operation fails: it returns no user and
`success=false`, A still holds `steam_id64` with its `steam_id` now
committed to null (a partial clear), and B never receives the identity —
contradicting the claimed clear-all-and-attach-in-one-transaction
behaviour. -/
theorem force_link_partial_clear_bug :
    (handle_account_linking store0 "https://r" (some ⟨"tok", .valid "sess-b"⟩)
        "steam" "76561198000000001" (some "AliceSteam") none true
        (some ⟨some "STEAM_0:1:20000", some "[U:1:40001]",
          some "https://steamcommunity.com/profiles/76561198000000001"⟩) 5) =
      { store := store0PartialClear, user := none, success := false,
        error := some { message := "Failed to force link account" } } := by
  decide

/-- C2 (evaluation at the failing input): A owns the Steam identity and B
force-links it via the `force-link-steam` endpoint; the Steam profile
fetch fails after the unlink of A was already committed.  The endpoint
returns an error, but the store is left with A fully cleared and the
identity attached to nobody — the rollback cannot restore the old owner,
so the identity is orphaned, contradicting the claimed atomicity. -/
theorem force_link_orphan_bug :
    (force_link_steam store0 (some (.valid "sess-b"))
        (some "76561198000000001") none 5) =
      (store0Orphaned, .err 500 "Failed to link Steam account")
    ∧ ((force_link_steam store0 (some (.valid "sess-b"))
        (some "76561198000000001") none 5).1.users.any
          (fun u => u.steam_id64 == some "76561198000000001")) = false := by
  constructor
  · decide
  · decide

/-- C5 (counterexample): the website repository's `create_or_update_user`
(`src/website/app/db/repositories.py`) inserts the new user without
granting any role: on an empty (role-seeded) store, the new user has
`discord_id="111"` and `steam_id64=null` but an empty role set, not
`{user}`. -/
theorem website_new_user_no_role_cex :
    (website_create_or_update_user storeEmpty "discord" "111" (some "Alice")
        none none 0).2 =
      some { id := 1, name := some "Alice", avatar_url := none,
             steam_id64 := none, steam_id := none, steam_id3 := none,
             steam_profile_url := none, discord_id := some "111",
             last_login := 0 }
    ∧ get_user_roles
        (website_create_or_update_user storeEmpty "discord" "111" (some "Alice")
          none none 0).1 1 = [] := by
  constructor
  · decide
  · decide

/-- C6 (counterexample): a steam-callback request without a link token is
indeed rejected (error redirect, store untouched), but Steam OpenID
verification has already been performed by then — `validate_steam_auth`
is invoked before the link-token check — so the request is not rejected
before provider verification. -/
theorem steam_callback_verifies_before_reject_cex :
    (steam_callback store0 "https://f" "https://r" none false
        (.ok "76561198000000001") (.ok spA) "new-tok" 5).verificationAttempted
      = true
    ∧ (steam_callback store0 "https://f" "https://r" none false
        (.ok "76561198000000001") (.ok spA) "new-tok" 5).response =
      .errorRedirect "https://f"
        "Direct Steam login is disabled. Please log in with Discord first." 403
    ∧ (steam_callback store0 "https://f" "https://r" none false
        (.ok "76561198000000001") (.ok spA) "new-tok" 5).store = store0 := by
  exact ⟨rfl, rfl, rfl⟩

/-- C6 (amended): a Steam login request without a link token is rejected
before any provider interaction (the handler only emits the frontend
error redirect); a Steam callback request without a link token performs
provider verification first but is then rejected with an error redirect
and no local state mutated. -/
theorem steam_no_link_token_amended (frontend return_to : String)
    (force : Bool) (db : Store) (realm : String)
    (verify : Except String String) (profile : Except String SteamProfile)
    (ntok : String) (now : Nat) :
    steam_login frontend return_to none force =
      .redirectFrontend (frontend ++ "?error=steam_login_disabled")
    ∧ (steam_callback db frontend realm none force verify profile ntok now).store
        = db
    ∧ ((steam_callback db frontend realm none force verify profile ntok
        now).response).isErrorRedirect = true := by
  refine ⟨rfl, ?_, ?_⟩ <;>
    cases verify <;> first
      | rfl
      | (cases profile <;> rfl)

/-- C7: once `invalidate_session` has returned `true` for a token, no
sequence of session-store operations can make `get_session` return that
token again — sessions are never reactivated; moreover invalidation is
idempotent (a second call still returns `true`) and `invalidate_session`
returns `false` exactly when no session row with that token exists. -/
theorem session_validity_monotonic (db : Store) (t : String)
    (h : (invalidate_session db t).2 = true) :
    (∀ (ops : List SessionOp) (now : Nat),
      get_session (applySessionOps (invalidate_session db t).1 ops) t now = none)
    ∧ (invalidate_session (invalidate_session db t).1 t).2 = true
    ∧ ∀ db2 : Store, ((invalidate_session db2 t).2 = false ↔
        db2.sessions.find? (fun s => s.session_token == t) = none) := by
  have hd := invalidate_session_tokenDead h
  refine ⟨fun ops now => tokenDead_get_none (tokenDead_applyOps hd ops) now, ?_, ?_⟩
  · rw [invalidate_session_snd]
    obtain ⟨s, hs, hst⟩ := hd.1
    exact List.find?_isSome.mpr ⟨s, hs, by simp [hst]⟩
  · intro db2
    rw [invalidate_session_snd]
    cases db2.sessions.find? (fun s => s.session_token == t) <;> simp

/-- C7 (witness): invalidating B's session in `store0` succeeds, and
after a later create (with a colliding token) and an unrelated
invalidation, `get_session` still returns nothing for it. -/
theorem session_validity_monotonic_witness :
    get_session
      (applySessionOps (invalidate_session store0 "sess-b").1
        [SessionOp.create 2 "discord" none none "sess-b" 7 30,
         SessionOp.invalidate "other"]) "sess-b" 8 = none :=
  (session_validity_monotonic store0 "sess-b" (by decide)).1
    [SessionOp.create 2 "discord" none none "sess-b" 7 30,
     SessionOp.invalidate "other"] 8

/-- C8: assigning a role the user already holds returns success and
leaves the store (in particular the `UserRole` table) unchanged, and
assigning any role twice leaves the same store as assigning it once. -/
theorem assign_role_idempotent_claim (db : Store) (uid : Nat)
    (rname : String) (ab : Option Nat) (rt : RoleType) (role : Role)
    (hparse : roleTypeOfString rname = some rt)
    (hrole : db.roles.find? (fun r => r.name == rt) = some role)
    (hhas : (db.user_roles.find?
      (fun ur => ur.user_id == uid && ur.role_id == role.id)).isSome = true) :
    assign_role db uid rname ab = (db, true)
    ∧ ∀ (db2 : Store) (uid2 : Nat) (rn2 : String) (ab2 : Option Nat),
        (assign_role (assign_role db2 uid2 rn2 ab2).1 uid2 rn2 ab2).1 =
          (assign_role db2 uid2 rn2 ab2).1 := by
  constructor
  · obtain ⟨x, hx⟩ := Option.isSome_iff_exists.mp hhas
    simp [assign_role, hparse, hrole, hx]
  · intro db2 uid2 rn2 ab2
    cases hp : roleTypeOfString rn2 with
    | none => simp [assign_role, hp]
    | some rt2 =>
      cases hr : db2.roles.find? (fun r => r.name == rt2) with
      | none => simp [assign_role, hp, hr]
      | some role2 =>
        cases hur : db2.user_roles.find?
            (fun ur => ur.user_id == uid2 && ur.role_id == role2.id) with
        | some x => simp [assign_role, hp, hr, hur]
        | none =>
          have hfind : ((db2.user_roles ++
              [(⟨uid2, role2.id, ab2⟩ : UserRole)]).find?
                (fun ur => ur.user_id == uid2 && ur.role_id == role2.id)) =
              some ⟨uid2, role2.id, ab2⟩ :=
            find?_append_right_some hur (by simp)
          simp [assign_role, hp, hr, hur, hfind]

/-- C8 (witness): user 1 in `store0` already holds the `user` role;
assigning it again returns `true` and the store is unchanged. -/
theorem assign_role_idempotent_witness :
    assign_role store0 1 "user" none = (store0, true) :=
  (assign_role_idempotent_claim store0 1 "user" none .user ⟨6, .user⟩
    (by decide) (by decide) (by decide)).1

/-- C3: when provider identity `i` already belongs to user A and a
different authenticated user B (resolved through a valid link token and
an active session) attempts to link it without force, the orchestrator
returns the conflicting owner A with `success=false`, mutates nothing,
and surfaces the structured error with the conflicting user id, the
`provider_account_already_linked` code and (for Steam) the retry URL
ending in `&force=true`. -/
theorem linking_conflict_no_force (db : Store) (realm : String)
    (lt : LinkTokenInput) (p i : String) (nm av : Option String)
    (sd : Option SteamData) (now : Nat) (st : String) (sess : UserSession)
    (A B : User)
    (hparse : lt.parse = .valid st)
    (hsess : get_session db st now = some sess)
    (hB : get_user_by_id db sess.user_id = some B)
    (hA : get_user_by_auth_id db p i = some A)
    (hne : A.id ≠ B.id) :
    handle_account_linking db realm (some lt) p i nm av false sd now =
      { store := db, user := some A, success := false,
        error := some
          { message := "This " ++ p ++ " account is already linked to a different user",
            error_code := some (p ++ "_account_already_linked"),
            auth_id := some i,
            linked_to_user_id := some A.id,
            force_link_url :=
              if p = "steam" then
                some (realm ++ "/auth/steam/login?link_token=" ++
                  quote_plus lt.raw ++ "&force=true")
              else none } } := by
  have hBid : B.id = sess.user_id := get_user_by_id_id hB
  have hAid : A.id ≠ sess.user_id := hBid ▸ hne
  simp only [handle_account_linking, hparse, hsess, hB, hA, Bool.false_and,
    handle_account_linking.handle_normal_link, link_account, if_pos hAid]
  simp

/-- C3 (witness): instantiated in `store0` with A the Steam owner, B the
authenticated Discord user, provider `steam`. -/
theorem linking_conflict_no_force_witness :
    handle_account_linking store0 "https://r" (some ⟨"tok", .valid "sess-b"⟩)
        "steam" "76561198000000001" none none false none 5 =
      { store := store0, user := some steamA, success := false,
        error := some
          { message := "This steam account is already linked to a different user",
            error_code := some "steam_account_already_linked",
            auth_id := some "76561198000000001",
            linked_to_user_id := some steamA.id,
            force_link_url :=
              if "steam" = "steam" then
                some ("https://r" ++ "/auth/steam/login?link_token=" ++
                  quote_plus "tok" ++ "&force=true")
              else none } } :=
  linking_conflict_no_force store0 "https://r" ⟨"tok", .valid "sess-b"⟩
    "steam" "76561198000000001" none none none 5 "sess-b" sessB steamA
    discordB rfl (by decide) (by decide) (by decide) (by decide)

/-- C5 (amended): the shared repository's `create_or_update_user` on a
store with no owner of Discord id `i` (role table seeded, autoincrement
id unused in `UserRole`) inserts exactly one new user with
`discord_id = i` and `steam_id64 = null`, and grants it exactly the
`user` role. -/
theorem create_new_user_auto_role (db : Store) (i : String)
    (nm av : Option String) (now : Nat) (role : Role)
    (hno : get_user_by_auth_id db "discord" i = none)
    (hrole : db.roles.find? (fun r => r.name == RoleType.user) = some role)
    (hfresh : ∀ ur ∈ db.user_roles, ur.user_id ≠ db.next_user_id) :
    create_or_update_user db "discord" i nm av none now =
      ({ db with
          users := db.users ++
            [⟨db.next_user_id, nm, av, none, none, none, none, some i, now⟩],
          user_roles := db.user_roles ++ [⟨db.next_user_id, role.id, none⟩],
          next_user_id := db.next_user_id + 1 },
        some ⟨db.next_user_id, nm, av, none, none, none, none, some i, now⟩)
    ∧ ((create_or_update_user db "discord" i nm av none now).1.user_roles.filter
        (fun ur => ur.user_id == db.next_user_id)) =
          [⟨db.next_user_id, role.id, none⟩] := by
  have hurnone : db.user_roles.find?
      (fun ur => ur.user_id == db.next_user_id &&
        ur.role_id == role.id) = none := by
    rw [List.find?_eq_none]
    intro ur hur
    simp [hfresh ur hur]
  have hmain : create_or_update_user db "discord" i nm av none now =
      ({ db with
          users := db.users ++
            [⟨db.next_user_id, nm, av, none, none, none, none, some i, now⟩],
          user_roles := db.user_roles ++ [⟨db.next_user_id, role.id, none⟩],
          next_user_id := db.next_user_id + 1 },
        some ⟨db.next_user_id, nm, av, none, none, none, none, some i, now⟩) := by
    simp [create_or_update_user, hno, assign_role, roleTypeOfString,
      hrole, hurnone]
  refine ⟨hmain, ?_⟩
  rw [hmain]
  simp only [List.filter_append]
  rw [List.filter_eq_nil_iff.mpr (fun ur hur => by simp [hfresh ur hur])]
  simp

/-- C5 (amended, witness): a new Discord login on the empty seeded store
creates user 1 with `discord_id="111"`, no Steam identity and exactly
the `user` role. -/
theorem create_new_user_auto_role_witness :
    create_or_update_user storeEmpty "discord" "111" (some "Alice") none
        none 0 =
      ({ storeEmpty with
          users := [⟨1, some "Alice", none, none, none, none, none,
            some "111", 0⟩],
          user_roles := [⟨1, 6, none⟩],
          next_user_id := 2 },
        some ⟨1, some "Alice", none, none, none, none, none, some "111", 0⟩) := by
  have h := (create_new_user_auto_role storeEmpty "111" (some "Alice") none 0
    ⟨6, .user⟩ (by decide) (by decide) (by decide)).1
  rw [h]
  decide

end MissPauling
